import Mathlib

/-!
# Verification of the docling conversion core

Shallow embedding of the orchestration core of the docling repository:
`docling/document_converter.py` (format dispatch, pipeline cache, batch
conversion with strict/lenient error semantics),
`docling/pipeline/standard_pdf_pipeline.py` (document-level confidence
aggregation), and `docling/models/tesseract_ocr_model.py` (per-rectangle
OCR resolution).  Python exceptions are modelled with `Except`, the
lazily-yielding generators with a list of yielded results together with an
optional terminal error, and machine floats for confidence scores with `ℚ`
(`none` standing for NaN / not-yet-scored).
-/

namespace Docling

/-- Input formats recognised by the converter
(`docling.datamodel.base_models.InputFormat`). -/
inductive InputFormat
  | CSV | XLSX | DOCX | PPTX | MD | ASCIIDOC | HTML | XML_USPTO | XML_JATS
  | IMAGE | PDF | JSON_DOCLING | Audio
deriving DecidableEq, Repr

/-- Terminal status of one document's conversion
(`docling.datamodel.base_models.ConversionStatus`). -/
inductive ConversionStatus
  | PENDING | STARTED | FAILURE | SUCCESS | PARTIAL_SUCCESS | SKIPPED
deriving DecidableEq, Repr

/-- Component that produced an error item
(`docling.datamodel.base_models.DoclingComponentType`). -/
inductive DoclingComponentType
  | DOCUMENT_BACKEND | MODEL | DOC_ASSEMBLER | USER_INPUT
deriving DecidableEq, Repr

/-- Structured error record attached to a `ConversionResult`
(`docling.datamodel.base_models.ErrorItem`). -/
structure ErrorItem where
  component_type : DoclingComponentType
  module_name : String
  error_message : String
deriving DecidableEq, Repr

/-- The pipeline classes dispatched to by `document_converter.py`
(`SimplePipeline`, `StandardPdfPipeline`, `AsrPipeline`). -/
inductive PipelineCls
  | SimplePipeline | StandardPdfPipeline | AsrPipeline
deriving DecidableEq, Repr

/-- The backend classes named in `document_converter.py`'s default
format-option table. -/
inductive BackendCls
  | AsciiDocBackend | CsvDocumentBackend | DoclingParseV4DocumentBackend
  | HTMLDocumentBackend | DoclingJSONBackend | MarkdownDocumentBackend
  | MsExcelDocumentBackend | MsPowerpointDocumentBackend | MsWordDocumentBackend
  | NoOpBackend | JatsDocumentBackend | PatentUsptoDocumentBackend
deriving DecidableEq, Repr

/-- Modelled from the spec: the "options value object" bound by a
`FormatOption` ("pipeline-specific options (an options value object)").
The concrete pydantic option classes live outside src/; what the cache key
depends on is exactly their serialized field dictionary
(`pipeline_options.model_dump()`), so the model keeps that dictionary as a
list of (field name, serialized value) pairs. -/
structure PipelineOptions where
  fields : List (String × String)
deriving DecidableEq, Repr

/-- Modelled from the spec: `Pipeline type: getDefaultOptions() -> OptionsValue`.
The concrete defaults live outside src/ (only
`StandardPdfPipeline.get_default_options`, returning `PdfPipelineOptions()`,
is in src/); each class gets a fixed default options value. -/
def get_default_options : PipelineCls → PipelineOptions
  | .SimplePipeline => ⟨[("create_legacy_output", "True")]⟩
  | .StandardPdfPipeline => ⟨[("do_table_structure", "True"), ("do_ocr", "True")]⟩
  | .AsrPipeline => ⟨[("asr_options", "whisper_tiny")]⟩

/-- `FormatOption` (document_converter.py): binds a pipeline class, optional
pipeline options and a backend class to a format. -/
structure FormatOption where
  pipeline_cls : PipelineCls
  pipeline_options : Option PipelineOptions := none
  backend : BackendCls
deriving DecidableEq, Repr

/-- `FormatOption.set_optional_field_default` (the `model_validator` with
mode "after"): replaces absent pipeline options by the pipeline class's
default options. -/
def set_optional_field_default (fo : FormatOption) : FormatOption :=
  match fo.pipeline_options with
  | none => { fo with pipeline_options := some (get_default_options fo.pipeline_cls) }
  | some _ => fo

/-- Construction of a `FormatOption` as pydantic performs it: the validator
runs right after the constructor. -/
def mkFormatOption (p : PipelineCls) (b : BackendCls) : FormatOption :=
  set_optional_field_default { pipeline_cls := p, backend := b }

/-- `_get_default_option` (document_converter.py): the built-in
format-to-option table.  The source raises `RuntimeError` for a format
missing from the table; here every `InputFormat` constructor is in the
table, so the function is total. -/
def _get_default_option : InputFormat → FormatOption
  | .CSV => mkFormatOption .SimplePipeline .CsvDocumentBackend
  | .XLSX => mkFormatOption .SimplePipeline .MsExcelDocumentBackend
  | .DOCX => mkFormatOption .SimplePipeline .MsWordDocumentBackend
  | .PPTX => mkFormatOption .SimplePipeline .MsPowerpointDocumentBackend
  | .MD => mkFormatOption .SimplePipeline .MarkdownDocumentBackend
  | .ASCIIDOC => mkFormatOption .SimplePipeline .AsciiDocBackend
  | .HTML => mkFormatOption .SimplePipeline .HTMLDocumentBackend
  | .XML_USPTO => mkFormatOption .SimplePipeline .PatentUsptoDocumentBackend
  | .XML_JATS => mkFormatOption .SimplePipeline .JatsDocumentBackend
  | .IMAGE => mkFormatOption .StandardPdfPipeline .DoclingParseV4DocumentBackend
  | .PDF => mkFormatOption .StandardPdfPipeline .DoclingParseV4DocumentBackend
  | .JSON_DOCLING => mkFormatOption .SimplePipeline .DoclingJSONBackend
  | .Audio => mkFormatOption .AsrPipeline .NoOpBackend

/-- Decidable equality for `Except`, used to evaluate the model's results on
concrete inputs. -/
def exceptDecEq {ε α : Type} [DecidableEq ε] [DecidableEq α] :
    (x y : Except ε α) → Decidable (x = y)
  | .error a, .error b =>
    if h : a = b then .isTrue (by rw [h])
    else .isFalse (fun hc => h (Except.error.inj hc))
  | .error _, .ok _ => .isFalse (fun hc => Except.noConfusion hc)
  | .ok _, .error _ => .isFalse (fun hc => Except.noConfusion hc)
  | .ok a, .ok b =>
    if h : a = b then .isTrue (by rw [h])
    else .isFalse (fun hc => h (Except.ok.inj hc))

instance {ε α : Type} [DecidableEq ε] [DecidableEq α] : DecidableEq (Except ε α) :=
  exceptDecEq

/-- First-match association lookup, the model of Python `dict.get`. -/
def assocFind {α β : Type} [DecidableEq α] : List (α × β) → α → Option β
  | [], _ => none
  | (k, v) :: rest, a => if k = a then some v else assocFind rest a

/-- Serialized option fields used inside the pipeline cache key. -/
abbrev OptionsHash := List (String × String)

/-- The composite pipeline cache key `(pipeline_class, options_hash)` of
`DocumentConverter._get_pipeline`. -/
abbrev CacheKey := PipelineCls × OptionsHash

/-- `DocumentConverter._get_pipeline_options_hash`: the md5 hex digest of
`str(pipeline_options.model_dump())`.  `str` is injective on distinct field
dictionaries and the md5 digest is a deterministic pure function of its
input treated as collision-free, so the digest is modelled by the
serialized option fields it is computed from. -/
def _get_pipeline_options_hash (pipeline_options : PipelineOptions) : OptionsHash :=
  pipeline_options.fields

/-- Python exceptions that can escape the converter's methods. -/
inductive DocErr
  | conversionError (message : String)
  | pipelineConstructionError (cls : PipelineCls)
  | stopIteration
deriving DecidableEq, Repr

/-- `DocumentConverter`: allowed formats, the format-to-option table built in
`__init__`, and the environment's verdict on pipeline construction
(`construct_ok cls opts = false` models the pipeline class constructor
raising, e.g. an invalid artifacts path or a missing external dependency). -/
structure DocumentConverter where
  allowed_formats : List InputFormat
  format_to_options : List (InputFormat × FormatOption)
  construct_ok : PipelineCls → PipelineOptions → Bool

/-- All members of `InputFormat`, the default of `allowed_formats`. -/
def InputFormat.all : List InputFormat :=
  [.CSV, .XLSX, .DOCX, .PPTX, .MD, .ASCIIDOC, .HTML, .XML_USPTO, .XML_JATS,
   .IMAGE, .PDF, .JSON_DOCLING, .Audio]

/-- `DocumentConverter.__init__`: allowed formats default to every format;
`format_to_options` maps each allowed format to the caller's custom option
when given, else to the built-in default. -/
def DocumentConverter.init (construct_ok : PipelineCls → PipelineOptions → Bool)
    (allowed_formats : Option (List InputFormat))
    (format_options : List (InputFormat × FormatOption)) : DocumentConverter :=
  let allowed := allowed_formats.getD InputFormat.all
  { allowed_formats := allowed
    format_to_options := allowed.map fun f =>
      (f, match assocFind format_options f with
          | some custom_option => custom_option
          | none => _get_default_option f)
    construct_ok := construct_ok }

/-- Mutable state of a converter: `initialized_pipelines` (the cache, key to
instance identity), the next fresh instance identity, and the log of
constructor invocations (instrumentation counting how often
`pipeline_class(pipeline_options=...)` ran). -/
structure ConverterState where
  initialized_pipelines : List (CacheKey × Nat)
  next_instance : Nat
  constructions : List CacheKey
deriving DecidableEq, Repr

/-- The fresh state of `DocumentConverter.__init__`: empty cache. -/
def ConverterState.initial : ConverterState :=
  { initialized_pipelines := [], next_instance := 0, constructions := [] }

/-- The state a cache miss leaves behind: the freshly constructed instance
inserted under its key, the instance counter advanced, the construction
logged. -/
def ConverterState.afterConstruct (st : ConverterState) (key : CacheKey) : ConverterState :=
  { initialized_pipelines := st.initialized_pipelines ++ [(key, st.next_instance)]
    next_instance := st.next_instance + 1
    constructions := st.constructions ++ [key] }

/-- `DocumentConverter._get_pipeline`: resolve the format's option, return
`none` when no option or no pipeline options exist, else compute the cache
key and — inside the critical section guarded by `_PIPELINE_CACHE_LOCK`,
which covers both the existence check and the insertion — return the cached
instance or construct and insert a fresh one.  A constructor exception
(`construct_ok = false`) propagates and the key is not inserted. -/
def _get_pipeline (conv : DocumentConverter) (st : ConverterState)
    (doc_format : InputFormat) : Except DocErr (Option Nat × ConverterState) :=
  match assocFind conv.format_to_options doc_format with
  | none => .ok (none, st)
  | some fopt =>
    match fopt.pipeline_options with
    | none => .ok (none, st)
    | some pipeline_options =>
      let options_hash := _get_pipeline_options_hash pipeline_options
      let cache_key : CacheKey := (fopt.pipeline_cls, options_hash)
      match assocFind st.initialized_pipelines cache_key with
      | some inst => .ok (some inst, st)
      | none =>
        if conv.construct_ok fopt.pipeline_cls pipeline_options then
          .ok (some st.next_instance,
            { initialized_pipelines :=
                st.initialized_pipelines ++ [(cache_key, st.next_instance)]
              next_instance := st.next_instance + 1
              constructions := st.constructions ++ [cache_key] })
        else
          .error (.pipelineConstructionError fopt.pipeline_cls)

/-- `InputDocument` as `_process_document` sees it: file name, resolved
format, validity flag.  `exec_status` is the terminal status that
`pipeline.execute(in_doc, ...)` reports for this document — pipeline
execution itself (base_pipeline.py) is outside src/, so its outcome is an
input of the model. -/
structure InputDocument where
  file : String
  format : InputFormat
  valid : Bool
  exec_status : ConversionStatus
deriving DecidableEq, Repr

/-- `ConversionResult` fields the converter manipulates: input document,
status, error list. -/
structure ConversionResult where
  input : InputDocument
  status : ConversionStatus
  errors : List ErrorItem := []
deriving DecidableEq, Repr

/-- Modelled from the spec: `execute(document, raiseOnError) ->
ConversionResult` — the pipeline execution contract (base_pipeline.py is
outside src/); its terminal status for a given document is the document's
`exec_status`. -/
def pipeline_execute (in_doc : InputDocument) : ConversionResult :=
  { input := in_doc, status := in_doc.exec_status }

/-- `DocumentConverter._execute_pipeline`: for a valid document, fetch the
pipeline via `_get_pipeline` — a constructor exception propagates here
unhandled, since the source wraps the call in no try/except — then execute
it; a `none` pipeline raises in strict mode and yields a `FAILURE` result in
lenient mode; an invalid document likewise raises or yields `FAILURE`. -/
def _execute_pipeline (conv : DocumentConverter) (st : ConverterState)
    (in_doc : InputDocument) (raises_on_error : Bool) :
    Except DocErr (ConversionResult × ConverterState) :=
  if in_doc.valid then
    match _get_pipeline conv st in_doc.format with
    | .error e => .error e
    | .ok (some _pipeline, st1) => .ok (pipeline_execute in_doc, st1)
    | .ok (none, st1) =>
      if raises_on_error then
        .error (.conversionError "No pipeline could be initialized")
      else
        .ok ({ input := in_doc, status := .FAILURE }, st1)
  else
    if raises_on_error then
      .error (.conversionError "Input document is not valid")
    else
      .ok ({ input := in_doc, status := .FAILURE }, st)

/-- `DocumentConverter._process_document`: a document whose format is outside
the allowed set raises in strict mode, and in lenient mode yields a
`SKIPPED` result carrying a single `USER_INPUT` error item; an allowed
format is delegated to `_execute_pipeline`. -/
def _process_document (conv : DocumentConverter) (st : ConverterState)
    (in_doc : InputDocument) (raises_on_error : Bool) :
    Except DocErr (ConversionResult × ConverterState) :=
  if in_doc.format ∈ conv.allowed_formats then
    _execute_pipeline conv st in_doc raises_on_error
  else
    if raises_on_error then
      .error (.conversionError "File format not allowed")
    else
      .ok ({ input := in_doc, status := .SKIPPED
             errors := [{ component_type := .USER_INPUT, module_name := ""
                          error_message := "File format not allowed" }] }, st)

/-- `DocumentConverter._convert` as a generator: documents are processed in
submission order (`chunkify` partitions the stream in order and both the
sequential `map` and `pool.map` preserve per-batch order), threading the
cache state; output is the list of yielded results plus the terminal
exception, if one escaped `_process_document`. -/
def _convert (conv : DocumentConverter) (st : ConverterState)
    (docs : List InputDocument) (raises_on_error : Bool) :
    List ConversionResult × ConverterState × Option DocErr :=
  match docs with
  | [] => ([], st, none)
  | d :: rest =>
    match _process_document conv st d raises_on_error with
    | .error e => ([], st, some e)
    | .ok (r, st1) =>
      let out := _convert conv st1 rest raises_on_error
      (r :: out.1, out.2.1, out.2.2)

/-- The status test of `convert_all`: membership in
`{ConversionStatus.SUCCESS, ConversionStatus.PARTIAL_SUCCESS}`. -/
def is_success_status : ConversionStatus → Bool
  | .SUCCESS => true
  | .PARTIAL_SUCCESS => true
  | _ => false

/-- The consuming loop of `DocumentConverter.convert_all`: each result from
`_convert` is yielded, except that in strict mode the first result whose
status is not SUCCESS/PARTIAL_SUCCESS raises a `ConversionError`, ending the
stream. -/
def convert_all_loop (raises_on_error : Bool) :
    List ConversionResult → List ConversionResult × Option DocErr
  | [] => ([], none)
  | r :: rest =>
    if raises_on_error && !(is_success_status r.status) then
      ([], some (.conversionError "Conversion failed"))
    else
      let out := convert_all_loop raises_on_error rest
      (r :: out.1, out.2)

/-- `DocumentConverter.convert_all` over the recognized input documents
(`_DocumentConversionInput.docs`, outside src/, resolves the caller's
sources to zero or more `InputDocument`s): the generator yields each
result, raising in strict mode on the first non-success status; an
exception escaping `_convert` propagates after the earlier yields; and when
nothing was yielded (`had_result` stays false) strict mode raises a final
`ConversionError`. -/
def convert_all (conv : DocumentConverter) (st : ConverterState)
    (docs : List InputDocument) (raises_on_error : Bool) :
    List ConversionResult × Option DocErr :=
  let inner := _convert conv st docs raises_on_error
  let scanned := convert_all_loop raises_on_error inner.1
  match scanned.2 with
  | some e => (scanned.1, some e)
  | none =>
    match inner.2.2 with
    | some e => (scanned.1, some e)
    | none =>
      if scanned.1.isEmpty && raises_on_error then
        ([], some (.conversionError
          "Conversion failed because the provided file has no recognizable format"))
      else
        (scanned.1, none)

/-- `DocumentConverter.convert`: `next()` on the `convert_all` generator for
a single source (which recognition resolves to zero or one
`InputDocument`s).  `next` returns the first yielded result; if the
generator raises before the first yield that exception propagates; if it
finishes without yielding, `next` raises `StopIteration`. -/
def convert (conv : DocumentConverter) (st : ConverterState)
    (source_docs : List InputDocument) (raises_on_error : Bool) :
    Except DocErr ConversionResult :=
  let out := convert_all conv st source_docs raises_on_error
  match out.1 with
  | r :: _ => .ok r
  | [] =>
    match out.2 with
    | some e => .error e
    | none => .error .stopIteration

/-! ## Document-level confidence aggregation (standard_pdf_pipeline.py) -/

/-- Per-page confidence scores (`PageConfidenceScores`): `none` models a NaN
score, the default for a page a stage never scored. -/
structure PageConfidence where
  layout_score : Option ℚ := none
  table_score : Option ℚ := none
  ocr_score : Option ℚ := none
  parse_score : Option ℚ := none
deriving DecidableEq, Repr

/-- The confidence report of a `ConversionResult`
(`conv_res.confidence`): per-page scores plus document-level aggregates,
whose default is NaN (`none`). -/
structure ConfidenceReport where
  pages : List PageConfidence
  layout_score : Option ℚ := none
  table_score : Option ℚ := none
  ocr_score : Option ℚ := none
  parse_score : Option ℚ := none
deriving DecidableEq, Repr

/-- Drop the NaN entries, as every numpy nan-aggregation does first. -/
def nanFilter (xs : List (Option ℚ)) : List ℚ := xs.filterMap id

/-- `numpy.nanmean`: arithmetic mean ignoring NaN entries; an all-NaN input
yields NaN (the `RuntimeWarning` is suppressed in the source). -/
def nanmean (xs : List (Option ℚ)) : Option ℚ :=
  let vs := nanFilter xs
  if vs.isEmpty then none else some (vs.sum / vs.length)

/-- Insertion into an ascending list, for the sort below. -/
def insertSorted (x : ℚ) : List ℚ → List ℚ
  | [] => [x]
  | y :: ys => if x ≤ y then x :: y :: ys else y :: insertSorted x ys

/-- Ascending insertion sort. -/
def sortAsc (xs : List ℚ) : List ℚ := xs.foldr insertSorted []

/-- Floor of a nonnegative rational as a natural number (the index
computation of the quantile below only sees `q * (n - 1) ≥ 0`). -/
def qfloor (x : ℚ) : ℕ := x.num.toNat / x.den

/-- `numpy.nanquantile` with the default linear-interpolation method: drop
NaNs, sort ascending to `v_0 ≤ ... ≤ v_(n-1)`, set `h = q * (n - 1)`,
`i = floor h`, `γ = h - i`, and return `v_i + γ * (v_(i+1) - v_i)`
(`v_i` alone at the top end); an all-NaN input yields NaN. -/
def nanquantile (q : ℚ) (xs : List (Option ℚ)) : Option ℚ :=
  let vs := sortAsc (nanFilter xs)
  match vs with
  | [] => none
  | v0 :: _ =>
    let n := vs.length
    let h : ℚ := q * (n - 1)
    let i : ℕ := qfloor h
    let γ : ℚ := h - i
    let lo := (vs.drop i).headD v0
    let hi := (vs.drop (i + 1)).headD lo
    some (lo + γ * (hi - lo))

/-- The confidence-aggregation tail of
`StandardPdfPipeline._assemble_document` (the `if len(conv_res.pages) > 0`
block): with at least one page, the document-level layout/table/OCR scores
become the `nanmean` of the per-page scores and the parse score the
`nanquantile` at `q = 0.1` of the per-page parse scores; with zero pages the
block is skipped and the defaults stay. -/
def _assemble_document_confidence (c : ConfidenceReport) : ConfidenceReport :=
  if 0 < c.pages.length then
    { c with
      layout_score := nanmean (c.pages.map PageConfidence.layout_score)
      parse_score := nanquantile (1 / 10) (c.pages.map PageConfidence.parse_score)
      table_score := nanmean (c.pages.map PageConfidence.table_score)
      ocr_score := nanmean (c.pages.map PageConfidence.ocr_score) }
  else
    c

/-! ## The Tesseract OCR region loop (tesseract_ocr_model.py) -/

/-- A bounding box in page coordinates (`docling_core` `BoundingBox` with
top-left origin, as the model builds them). -/
structure BBox where
  l : ℚ
  t : ℚ
  r : ℚ
  b : ℚ
deriving DecidableEq, Repr

/-- `BoundingBox.area()`: width times height. -/
def BBox.area (bb : BBox) : ℚ := (bb.r - bb.l) * (bb.b - bb.t)

/-- The result dictionary of `osd_reader.DetectOrientationScript()` when it
returns one (the fields the source reads). -/
structure Osd where
  orient_deg : Int
  script_name : String
deriving DecidableEq, Repr

/-- One line box from `local_reader.GetComponentImages(TEXTLINE, True)`
together with the recognizer's responses for that sub-rectangle
(`GetUTF8Text` before `.strip()`, `MeanTextConf`) — external tesserocr
outputs, inputs of the model. -/
structure LineBox where
  x : ℚ
  y : ℚ
  w : ℚ
  h : ℚ
  text : String
  conf : ℚ
deriving DecidableEq, Repr

/-- One OCR rectangle together with the external tesserocr responses the
page backend and recognizer would give for it. -/
structure OcrRectInput where
  rect : BBox
  osd : Option Osd
  boxes : List LineBox
deriving DecidableEq, Repr

/-- Which recognizer instance `local_reader` ends up as: `self.reader` or
`self.script_readers[script]`. -/
inductive OcrReader
  | default
  | script (name : String)
deriving DecidableEq, Repr

/-- The configuration of `TesseractOcrModel.__init__` that the region loop
reads: `self.options.lang`, the installed `self._tesserocr_languages`, and
the script name prefix field ("script/" or the empty string). -/
structure TesseractConfig where
  lang : List String
  tesserocr_languages : List String
  script_pfx : String
deriving DecidableEq, Repr

/-- `self._is_auto: "auto" in self.options.lang`. -/
def _is_auto (cfg : TesseractConfig) : Bool := cfg.lang.contains "auto"

/-- `self.scale = 3`: multiplier for 72 dpi == 216 dpi. -/
def tesseract_scale : ℚ := 3

/-- Modelled from the spec: `parse_tesseract_orientation`
(docling.utils.ocr_utils, outside src/) normalises the OSD-reported angle
to a rotation; only zero versus non-zero matters to the claims here. -/
def parse_tesseract_orientation (deg : Int) : Int := deg % 360

/-- Modelled from the spec: `map_tesseract_script` (docling.utils.ocr_utils,
outside src/) "maps the detected script name to a canonical language
identifier"; the mapping table is irrelevant to the claims here. -/
def map_tesseract_script (script : String) : String := script

/-- A cell rectangle in page space plus the rotation it was mapped through.
Modelled from the spec: `tesseract_box_to_bounding_rectangle`
(docling.utils.ocr_utils, outside src/) maps a line box through "inverse
rotation → inverse upscale → offset by the original region's top-left";
the model applies inverse upscale and offset and records the rotation. -/
structure BoundingRectangle where
  bbox : BBox
  rotation : Int
deriving DecidableEq, Repr

/-- Modelled from the spec: the coordinate mapping of step 6 of the OCR
algorithm (see `BoundingRectangle`). -/
def tesseract_box_to_bounding_rectangle (bbox : BBox) (original_offset : BBox)
    (scale : ℚ) (orientation : Int) : BoundingRectangle :=
  { bbox := { l := original_offset.l + bbox.l / scale
              t := original_offset.t + bbox.t / scale
              r := original_offset.l + bbox.r / scale
              b := original_offset.t + bbox.b / scale }
    rotation := orientation }

/-- `TextCell` as the region loop builds it: index, stripped text (also as
`orig`), `from_ocr=True`, mean confidence and the mapped rectangle. -/
structure TextCell where
  index : ℕ
  text : String
  orig : String
  from_ocr : Bool
  confidence : ℚ
  rect : BoundingRectangle
deriving DecidableEq, Repr

/-- The inner box loop of `TesseractOcrModel.__call__`: one `TextCell` per
line box returned by `GetComponentImages`. -/
def mk_cells (offset : BBox) (orientation : Int) (boxes : List LineBox) :
    List TextCell :=
  boxes.enum.map fun p =>
    let box := p.2
    let bbox : BBox := { l := box.x, t := box.y, r := box.x + box.w, b := box.y + box.h }
    { index := p.1
      text := box.text.trim
      orig := box.text.trim
      from_ocr := true
      confidence := box.conf
      rect := tesseract_box_to_bounding_rectangle bbox offset tesseract_scale orientation }

/-- Trace of one iteration of the rectangle loop of
`TesseractOcrModel.__call__`: whether the rectangle was rendered
(`get_page_image`), submitted to the OSD detector (`osd_reader.SetImage`),
which recognizer — if any — it was submitted to (`local_reader.SetImage`),
the rotation applied, and the cells it contributed. -/
structure RectTrace where
  rendered : Bool
  osd_submitted : Bool
  reader_used : Option OcrReader
  rotation : Int
  cells : List TextCell
deriving DecidableEq, Repr

/-- One iteration of the rectangle loop of `TesseractOcrModel.__call__`
(together with the `self.script_readers` pool it may extend): skip
zero-area rectangles; render and submit to OSD; on a missing OSD result
skip entirely in automatic-language mode, else proceed with zero rotation
and the default reader; on an OSD result apply the parsed rotation, and in
automatic-language mode pick (lazily instantiating) the script reader when
the mapped language is installed, warning and keeping the default reader
when it is not. -/
def process_ocr_rect (cfg : TesseractConfig) (script_readers : List String)
    (input : OcrRectInput) : RectTrace × List String :=
  if input.rect.area = 0 then
    ({ rendered := false, osd_submitted := false, reader_used := none
       rotation := 0, cells := [] }, script_readers)
  else
    match input.osd with
    | none =>
      if _is_auto cfg then
        ({ rendered := true, osd_submitted := true, reader_used := none
           rotation := 0, cells := [] }, script_readers)
      else
        ({ rendered := true, osd_submitted := true, reader_used := some .default
           rotation := 0, cells := mk_cells input.rect 0 input.boxes }, script_readers)
    | some osd =>
      let doc_orientation := parse_tesseract_orientation osd.orient_deg
      if _is_auto cfg then
        let script := map_tesseract_script osd.script_name
        let lang := cfg.script_pfx ++ script
        if cfg.tesserocr_languages.contains lang then
          let readers1 :=
            if script_readers.contains script then script_readers
            else script_readers ++ [script]
          ({ rendered := true, osd_submitted := true
             reader_used := some (.script script), rotation := doc_orientation
             cells := mk_cells input.rect doc_orientation input.boxes }, readers1)
        else
          ({ rendered := true, osd_submitted := true, reader_used := some .default
             rotation := doc_orientation
             cells := mk_cells input.rect doc_orientation input.boxes }, script_readers)
      else
        ({ rendered := true, osd_submitted := true, reader_used := some .default
           rotation := doc_orientation
           cells := mk_cells input.rect doc_orientation input.boxes }, script_readers)

/-- The whole rectangle loop over `ocr_rects`, threading the
`script_readers` pool and collecting the per-rectangle traces. -/
def process_ocr_rects (cfg : TesseractConfig) (script_readers : List String) :
    List OcrRectInput → List RectTrace × List String
  | [] => ([], script_readers)
  | input :: rest =>
    let step := process_ocr_rect cfg script_readers input
    let out := process_ocr_rects cfg step.2 rest
    (step.1 :: out.1, out.2)

/-- `all_ocr_cells`: the concatenation of every rectangle's cells, as handed
to `post_process_cells`. -/
def all_ocr_cells (cfg : TesseractConfig) (script_readers : List String)
    (inputs : List OcrRectInput) : List TextCell :=
  ((process_ocr_rects cfg script_readers inputs).1.map RectTrace.cells).flatten

/-! ## Serialized executions of the pipeline-cache critical section

The whole body of `_get_pipeline` past the key computation runs holding
`_PIPELINE_CACHE_LOCK`, so under N concurrent first-users the executions of
the check-then-insert critical section serialize into some sequence; a
schedule of N threads requesting the same format is therefore modelled as N
successive `_get_pipeline` calls threading the state. -/

/-- Run one `_get_pipeline` call per requested format, threading the cache
state; a construction exception ends the run. -/
def run_get_pipeline_calls (conv : DocumentConverter) (st : ConverterState) :
    List InputFormat → Except DocErr ConverterState
  | [] => .ok st
  | f :: fs =>
    match _get_pipeline conv st f with
    | .error e => .error e
    | .ok (_, st1) => run_get_pipeline_calls conv st1 fs

/-! ## Concrete fixtures used by witnesses and counterexamples -/

/-- A converter restricted to PDF, every pipeline constructor succeeding. -/
def convPdfOnly : DocumentConverter :=
  DocumentConverter.init (fun _ _ => true) (some [InputFormat.PDF]) []

/-- A converter over every format, every pipeline constructor succeeding. -/
def convAllOk : DocumentConverter :=
  DocumentConverter.init (fun _ _ => true) none []

/-- A converter over every format whose pipeline constructors all raise
(e.g. an invalid artifacts path or a missing external dependency). -/
def convFailingCtor : DocumentConverter :=
  DocumentConverter.init (fun _ _ => false) none []

/-- A converter allowing PDF and IMAGE, both on their defaults — the same
pipeline class (`StandardPdfPipeline`) with value-equal default options,
supplied as two independent `FormatOption` values. -/
def convTwoSame : DocumentConverter :=
  DocumentConverter.init (fun _ _ => true)
    (some [InputFormat.PDF, InputFormat.IMAGE]) []

/-- A converter allowing PDF and IMAGE where the IMAGE option keeps the
pipeline class but changes one option field. -/
def convTwoDiff : DocumentConverter :=
  DocumentConverter.init (fun _ _ => true)
    (some [InputFormat.PDF, InputFormat.IMAGE])
    [(InputFormat.IMAGE,
      { pipeline_cls := .StandardPdfPipeline
        pipeline_options := some ⟨[("do_ocr", "False")]⟩
        backend := .DoclingParseV4DocumentBackend })]

/-- A converter allowing PDF and IMAGE with value-equal pipeline options but
different backend classes. -/
def convDiffBackend : DocumentConverter :=
  DocumentConverter.init (fun _ _ => true)
    (some [InputFormat.PDF, InputFormat.IMAGE])
    [(InputFormat.PDF,
      { pipeline_cls := .StandardPdfPipeline
        pipeline_options := some (get_default_options .StandardPdfPipeline)
        backend := .DoclingParseV4DocumentBackend }),
     (InputFormat.IMAGE,
      { pipeline_cls := .StandardPdfPipeline
        pipeline_options := some (get_default_options .StandardPdfPipeline)
        backend := .NoOpBackend })]

/-- A valid PDF input document whose pipeline execution would succeed. -/
def docPdf : InputDocument :=
  { file := "sample.pdf", format := .PDF, valid := true, exec_status := .SUCCESS }

/-- A DOCX document, used against a converter that only allows PDF. -/
def docDocx : InputDocument :=
  { file := "sample.docx", format := .DOCX, valid := true, exec_status := .SUCCESS }

/-- Markdown documents whose pipeline executions succeed or fail. -/
def docMdGood1 : InputDocument :=
  { file := "a.md", format := .MD, valid := true, exec_status := .SUCCESS }

/-- A Markdown document whose pipeline execution reports FAILURE. -/
def docMdBad : InputDocument :=
  { file := "b.md", format := .MD, valid := true, exec_status := .FAILURE }

/-- A second succeeding Markdown document, submitted after the failing one. -/
def docMdGood2 : InputDocument :=
  { file := "c.md", format := .MD, valid := true, exec_status := .SUCCESS }

/-- The results `_convert` yields for the three Markdown documents above. -/
def rsMd : List ConversionResult :=
  [{ input := docMdGood1, status := .SUCCESS },
   { input := docMdBad, status := .FAILURE },
   { input := docMdGood2, status := .SUCCESS }]

/-- The cache state after the three Markdown conversions: one
`SimplePipeline` instance constructed. -/
def stMd : ConverterState :=
  { initialized_pipelines :=
      [((.SimplePipeline, [("create_legacy_output", "True")]), 0)]
    next_instance := 1
    constructions := [(.SimplePipeline, [("create_legacy_output", "True")])] }

/-- The cache state after one `_get_pipeline` call for PDF on
`convTwoSame`. -/
def stPdf1 : ConverterState :=
  { initialized_pipelines :=
      [((.StandardPdfPipeline, [("do_table_structure", "True"), ("do_ocr", "True")]), 0)]
    next_instance := 1
    constructions :=
      [(.StandardPdfPipeline, [("do_table_structure", "True"), ("do_ocr", "True")])] }

/-- The cache state after `convTwoDiff` served PDF and then IMAGE: two
distinct entries, two constructions. -/
def stPdfDiff2 : ConverterState :=
  { initialized_pipelines :=
      [((.StandardPdfPipeline, [("do_table_structure", "True"), ("do_ocr", "True")]), 0),
       ((.StandardPdfPipeline, [("do_ocr", "False")]), 1)]
    next_instance := 2
    constructions :=
      [(.StandardPdfPipeline, [("do_table_structure", "True"), ("do_ocr", "True")]),
       (.StandardPdfPipeline, [("do_ocr", "False")])] }

/-- A fixed-language Tesseract configuration (no "auto" entry). -/
def cfgFixed : TesseractConfig :=
  { lang := ["eng"], tesserocr_languages := ["eng", "osd"], script_pfx := "" }

/-- An automatic-language Tesseract configuration. -/
def cfgAuto : TesseractConfig :=
  { lang := ["auto"], tesserocr_languages := ["eng", "osd"], script_pfx := "" }

/-- A recognized text line returned by the external recognizer. -/
def lineBox1 : LineBox :=
  { x := 0, y := 0, w := 30, h := 6, text := " hello ", conf := 95 }

/-- A normal OCR rectangle (unit square) with an OSD result and one text
line. -/
def rectNormal : OcrRectInput :=
  { rect := { l := 0, t := 0, r := 1, b := 1 }
    osd := some { orient_deg := 0, script_name := "Latin" }
    boxes := [lineBox1] }

/-- A degenerate OCR rectangle of zero area (zero width, positive height). -/
def rectZeroArea : OcrRectInput :=
  { rect := { l := 4, t := 0, r := 4, b := 5 }
    osd := some { orient_deg := 0, script_name := "Latin" }
    boxes := [lineBox1] }

/-- An OCR rectangle (unit square) for which OSD returns no result. -/
def rectNoOsd : OcrRectInput :=
  { rect := { l := 0, t := 0, r := 1, b := 1 }
    osd := none
    boxes := [lineBox1] }

/-- The confidence report of the spec's example: per-page parse scores
0.9, 0.95, 0.2, 0.97, 0.99. -/
def confExample : ConfidenceReport :=
  { pages :=
      [{ parse_score := some (9 / 10) }, { parse_score := some (19 / 20) },
       { parse_score := some (1 / 5) }, { parse_score := some (97 / 100) },
       { parse_score := some (99 / 100) }] }

/-! ## Helper lemmas -/

/-- Appending a binding for a key absent from the list makes it found. -/
theorem assocFind_append_of_none {α β : Type} [DecidableEq α] :
    ∀ (l : List (α × β)) (k : α) (v : β),
      assocFind l k = none → assocFind (l ++ [(k, v)]) k = some v
  | [], k, v, _ => by simp [assocFind]
  | (a, b) :: rest, k, v, h => by
    simp only [assocFind] at h
    simp only [List.cons_append, assocFind]
    by_cases hk : a = k
    · rw [if_pos hk] at h
      exact absurd h (by simp)
    · rw [if_neg hk] at h ⊢
      exact assocFind_append_of_none rest k v h

/-- Appending a binding for a different key does not change a lookup. -/
theorem assocFind_append_ne {α β : Type} [DecidableEq α] :
    ∀ (l : List (α × β)) (k q : α) (v : β), k ≠ q →
      assocFind (l ++ [(k, v)]) q = assocFind l q
  | [], k, q, v, h => by simp [assocFind, h]
  | (a, b) :: rest, k, q, v, h => by
    simp only [List.cons_append, assocFind]
    by_cases ha : a = q
    · rw [if_pos ha, if_pos ha]
    · rw [if_neg ha, if_neg ha]
      exact assocFind_append_ne rest k q v h

/-- Normal form of `_get_pipeline` once the format resolves to an option
with pipeline options. -/
theorem _get_pipeline_eq (conv : DocumentConverter) (st : ConverterState)
    (f : InputFormat) (fo : FormatOption) (o : PipelineOptions)
    (hf : assocFind conv.format_to_options f = some fo)
    (ho : fo.pipeline_options = some o) :
    _get_pipeline conv st f =
      match assocFind st.initialized_pipelines (fo.pipeline_cls, o.fields) with
      | some inst => .ok (some inst, st)
      | none =>
        if conv.construct_ok fo.pipeline_cls o then
          .ok (some st.next_instance, st.afterConstruct (fo.pipeline_cls, o.fields))
        else
          .error (.pipelineConstructionError fo.pipeline_cls) := by
  simp only [_get_pipeline, hf, ho, _get_pipeline_options_hash, ConverterState.afterConstruct]

/-- A cached key is returned as-is with an unchanged state. -/
theorem _get_pipeline_hit (conv : DocumentConverter) (st : ConverterState)
    (f : InputFormat) (fo : FormatOption) (o : PipelineOptions) (p : ℕ)
    (hf : assocFind conv.format_to_options f = some fo)
    (ho : fo.pipeline_options = some o)
    (hhit : assocFind st.initialized_pipelines (fo.pipeline_cls, o.fields) = some p) :
    _get_pipeline conv st f = .ok (some p, st) := by
  rw [_get_pipeline_eq conv st f fo o hf ho, hhit]

/-- A missing key with a succeeding constructor allocates the next instance
and inserts it. -/
theorem _get_pipeline_miss (conv : DocumentConverter) (st : ConverterState)
    (f : InputFormat) (fo : FormatOption) (o : PipelineOptions)
    (hf : assocFind conv.format_to_options f = some fo)
    (ho : fo.pipeline_options = some o)
    (hmiss : assocFind st.initialized_pipelines (fo.pipeline_cls, o.fields) = none)
    (hok : conv.construct_ok fo.pipeline_cls o = true) :
    _get_pipeline conv st f =
      .ok (some st.next_instance, st.afterConstruct (fo.pipeline_cls, o.fields)) := by
  rw [_get_pipeline_eq conv st f fo o hf ho, hmiss]
  simp [hok]

/-- A missing key with a raising constructor propagates the exception. -/
theorem _get_pipeline_ctor_fails (conv : DocumentConverter) (st : ConverterState)
    (f : InputFormat) (fo : FormatOption) (o : PipelineOptions)
    (hf : assocFind conv.format_to_options f = some fo)
    (ho : fo.pipeline_options = some o)
    (hmiss : assocFind st.initialized_pipelines (fo.pipeline_cls, o.fields) = none)
    (hfail : conv.construct_ok fo.pipeline_cls o = false) :
    _get_pipeline conv st f = .error (.pipelineConstructionError fo.pipeline_cls) := by
  rw [_get_pipeline_eq conv st f fo o hf ho, hmiss]
  simp [hfail]

/-- After any successful `_get_pipeline` call, a second call whose format
resolves to the same cache key returns the same instance and leaves the
state unchanged. -/
theorem _get_pipeline_second_call_same_key (conv : DocumentConverter)
    (st : ConverterState) (f1 f2 : InputFormat) (fo1 fo2 : FormatOption)
    (o1 o2 : PipelineOptions) (p1 : ℕ) (st1 : ConverterState)
    (h1 : assocFind conv.format_to_options f1 = some fo1)
    (h2 : assocFind conv.format_to_options f2 = some fo2)
    (hp1 : fo1.pipeline_options = some o1)
    (hp2 : fo2.pipeline_options = some o2)
    (hcls : fo1.pipeline_cls = fo2.pipeline_cls)
    (hfields : o1.fields = o2.fields)
    (hc1 : _get_pipeline conv st f1 = .ok (some p1, st1)) :
    _get_pipeline conv st1 f2 = .ok (some p1, st1) := by
  rw [_get_pipeline_eq conv st f1 fo1 o1 h1 hp1] at hc1
  cases hhit : assocFind st.initialized_pipelines (fo1.pipeline_cls, o1.fields) with
  | some p =>
    rw [hhit] at hc1
    simp only [Except.ok.injEq, Prod.mk.injEq, Option.some.injEq] at hc1
    obtain ⟨rfl, rfl⟩ := hc1
    exact _get_pipeline_hit conv st f2 fo2 o2 p h2 hp2 (by rw [← hcls, ← hfields]; exact hhit)
  | none =>
    rw [hhit] at hc1
    cases hok : conv.construct_ok fo1.pipeline_cls o1 with
    | false => rw [hok] at hc1; simp at hc1
    | true =>
      rw [hok] at hc1
      simp only [if_true, Except.ok.injEq, Prod.mk.injEq, Option.some.injEq] at hc1
      obtain ⟨rfl, rfl⟩ := hc1
      refine _get_pipeline_hit conv _ f2 fo2 o2 st.next_instance h2 hp2 ?_
      rw [← hcls, ← hfields]
      exact assocFind_append_of_none st.initialized_pipelines _ _ hhit

/-- Once the key is cached, any number of further calls for it leave the
state untouched. -/
theorem run_calls_replicate_hit (conv : DocumentConverter) (st : ConverterState)
    (f : InputFormat) (fo : FormatOption) (o : PipelineOptions) (p : ℕ) (n : ℕ)
    (hf : assocFind conv.format_to_options f = some fo)
    (ho : fo.pipeline_options = some o)
    (hhit : assocFind st.initialized_pipelines (fo.pipeline_cls, o.fields) = some p) :
    run_get_pipeline_calls conv st (List.replicate n f) = .ok st := by
  induction n with
  | zero => rfl
  | succ n ih =>
    rw [List.replicate_succ]
    unfold run_get_pipeline_calls
    rw [_get_pipeline_hit conv st f fo o p hf ho hhit]
    exact ih

/-! ## Claim theorems -/

/-- C7: for an input document whose format is not in the converter's
allowed-format set, `_process_document` yields a `SKIPPED` result carrying
exactly one error item of user-input component type in lenient mode, and
raises immediately — producing no result — in strict mode. -/
theorem unallowed_format_skipped_or_raises (conv : DocumentConverter)
    (st : ConverterState) (in_doc : InputDocument)
    (h : in_doc.format ∉ conv.allowed_formats) :
    _process_document conv st in_doc false =
      .ok ({ input := in_doc, status := .SKIPPED
             errors := [{ component_type := .USER_INPUT, module_name := ""
                          error_message := "File format not allowed" }] }, st)
    ∧ _process_document conv st in_doc true =
        .error (.conversionError "File format not allowed") := by
  unfold _process_document
  rw [if_neg h, if_neg h]
  exact ⟨rfl, rfl⟩

/-- C7 witness: a DOCX document against a PDF-only converter. -/
theorem unallowed_format_skipped_or_raises_witness :
    _process_document convPdfOnly ConverterState.initial docDocx false =
      .ok ({ input := docDocx, status := .SKIPPED
             errors := [{ component_type := .USER_INPUT, module_name := ""
                          error_message := "File format not allowed" }] },
           ConverterState.initial)
    ∧ _process_document convPdfOnly ConverterState.initial docDocx true =
        .error (.conversionError "File format not allowed") :=
  unallowed_format_skipped_or_raises convPdfOnly ConverterState.initial docDocx (by decide)

/-- C9: in lenient mode, when the single source given to `convert` is
recognized into zero input documents — so `convert_all` yields zero
results and, being lenient, raises nothing — `next()` on the exhausted
generator raises `StopIteration` instead of returning a
`ConversionResult`; `convert` can therefore raise even in lenient mode. -/
theorem convert_lenient_no_results_raises_stop_iteration
    (conv : DocumentConverter) (st : ConverterState) :
    convert conv st [] false = .error .stopIteration := rfl

/-- C2: two `FormatOption`s with the same pipeline class whose options are
equal by value — even when supplied independently for different formats —
resolve to the identical cached pipeline instance: a `_get_pipeline` call
after any successful first call returns the same instance and leaves the
cache untouched.  And options that differ in any serialized field produce
distinct instances: starting from a state holding neither key, the two
calls return different instance identities. -/
theorem pipeline_cache_identity (conv : DocumentConverter) (st : ConverterState)
    (f1 f2 : InputFormat) (fo1 fo2 : FormatOption) (o1 o2 : PipelineOptions)
    (h1 : assocFind conv.format_to_options f1 = some fo1)
    (h2 : assocFind conv.format_to_options f2 = some fo2)
    (hp1 : fo1.pipeline_options = some o1)
    (hp2 : fo2.pipeline_options = some o2)
    (hcls : fo1.pipeline_cls = fo2.pipeline_cls) :
    (o1 = o2 → ∀ p1 st1,
      _get_pipeline conv st f1 = .ok (some p1, st1) →
      _get_pipeline conv st1 f2 = .ok (some p1, st1))
    ∧ (o1.fields ≠ o2.fields →
      assocFind st.initialized_pipelines (fo1.pipeline_cls, o1.fields) = none →
      assocFind st.initialized_pipelines (fo2.pipeline_cls, o2.fields) = none →
      conv.construct_ok fo1.pipeline_cls o1 = true →
      conv.construct_ok fo2.pipeline_cls o2 = true →
      ∀ p1 st1 p2 st2,
        _get_pipeline conv st f1 = .ok (some p1, st1) →
        _get_pipeline conv st1 f2 = .ok (some p2, st2) →
        p1 ≠ p2) := by
  constructor
  · intro hopts p1 st1 hc1
    exact _get_pipeline_second_call_same_key conv st f1 f2 fo1 fo2 o1 o2 p1 st1
      h1 h2 hp1 hp2 hcls (by rw [hopts]) hc1
  · intro hfields hmiss1 hmiss2 hok1 hok2 p1 st1 p2 st2 hc1 hc2
    rw [_get_pipeline_miss conv st f1 fo1 o1 h1 hp1 hmiss1 hok1] at hc1
    simp only [Except.ok.injEq, Prod.mk.injEq, Option.some.injEq] at hc1
    obtain ⟨rfl, rfl⟩ := hc1
    have hkeys : (fo1.pipeline_cls, o1.fields) ≠ ((fo2.pipeline_cls, o2.fields) : CacheKey) := by
      intro hcon
      exact hfields (congrArg Prod.snd hcon)
    have hmiss2' : assocFind (st.afterConstruct (fo1.pipeline_cls, o1.fields)).initialized_pipelines
        (fo2.pipeline_cls, o2.fields) = none := by
      unfold ConverterState.afterConstruct
      rw [assocFind_append_ne st.initialized_pipelines _ _ _ hkeys]
      exact hmiss2
    rw [_get_pipeline_miss conv _ f2 fo2 o2 h2 hp2 hmiss2' hok2] at hc2
    simp only [Except.ok.injEq, Prod.mk.injEq, Option.some.injEq] at hc2
    obtain ⟨rfl, -⟩ := hc2
    simp [ConverterState.afterConstruct]

/-- C2 witness: `convTwoSame` maps PDF and IMAGE to independent
`FormatOption` values with the same pipeline class and value-equal default
options — after the PDF call constructed instance 0, the IMAGE call returns
the same instance 0 and changes nothing; on `convTwoDiff`, whose IMAGE
options differ in a field, the IMAGE call cannot return instance 0 again. -/
theorem pipeline_cache_identity_witness :
    _get_pipeline convTwoSame stPdf1 .IMAGE = .ok (some 0, stPdf1)
    ∧ _get_pipeline convTwoDiff stPdf1 .IMAGE ≠ .ok (some 0, stPdfDiff2) := by
  constructor
  · exact (pipeline_cache_identity convTwoSame ConverterState.initial .PDF .IMAGE
      (_get_default_option .PDF) (_get_default_option .IMAGE)
      (get_default_options .StandardPdfPipeline) (get_default_options .StandardPdfPipeline)
      (by decide) (by decide) rfl rfl rfl).1 rfl 0 stPdf1 (by decide)
  · intro hcon
    exact (pipeline_cache_identity convTwoDiff ConverterState.initial .PDF .IMAGE
      (_get_default_option .PDF)
      { pipeline_cls := .StandardPdfPipeline
        pipeline_options := some ⟨[("do_ocr", "False")]⟩
        backend := .DoclingParseV4DocumentBackend }
      (get_default_options .StandardPdfPipeline) ⟨[("do_ocr", "False")]⟩
      (by decide) (by decide) rfl rfl rfl).2
      (by decide) rfl rfl rfl rfl 0 stPdf1 0 stPdfDiff2 (by decide) hcon rfl

/-- C10: the backend class is not part of the pipeline cache key — two
`FormatOption`s with the same pipeline class and value-equal pipeline
options but different backend classes resolve to the same cached pipeline
instance. -/
theorem backend_not_part_of_cache_key (conv : DocumentConverter)
    (st : ConverterState) (f1 f2 : InputFormat) (fo1 fo2 : FormatOption)
    (o1 o2 : PipelineOptions)
    (h1 : assocFind conv.format_to_options f1 = some fo1)
    (h2 : assocFind conv.format_to_options f2 = some fo2)
    (hp1 : fo1.pipeline_options = some o1)
    (hp2 : fo2.pipeline_options = some o2)
    (hcls : fo1.pipeline_cls = fo2.pipeline_cls)
    (hopts : o1 = o2)
    (hbackend : fo1.backend ≠ fo2.backend) :
    ∀ p1 st1,
      _get_pipeline conv st f1 = .ok (some p1, st1) →
      _get_pipeline conv st1 f2 = .ok (some p1, st1) :=
  fun p1 st1 hc1 =>
    _get_pipeline_second_call_same_key conv st f1 f2 fo1 fo2 o1 o2 p1 st1
      h1 h2 hp1 hp2 hcls (by rw [hopts]) hc1

/-- C10 witness: `convDiffBackend` binds PDF and IMAGE to the same pipeline
class and value-equal options but different backends; the IMAGE call reuses
the PDF call's instance 0. -/
theorem backend_not_part_of_cache_key_witness :
    _get_pipeline convDiffBackend stPdf1 .IMAGE = .ok (some 0, stPdf1) :=
  backend_not_part_of_cache_key convDiffBackend ConverterState.initial .PDF .IMAGE
    { pipeline_cls := .StandardPdfPipeline
      pipeline_options := some (get_default_options .StandardPdfPipeline)
      backend := .DoclingParseV4DocumentBackend }
    { pipeline_cls := .StandardPdfPipeline
      pipeline_options := some (get_default_options .StandardPdfPipeline)
      backend := .NoOpBackend }
    (get_default_options .StandardPdfPipeline) (get_default_options .StandardPdfPipeline)
    (by decide) (by decide) rfl rfl rfl rfl (by decide) 0 stPdf1 (by decide)

/-- C8: the body of `_get_pipeline` runs holding `_PIPELINE_CACHE_LOCK`, so
the existence check and the insertion form one atomic critical section and
N concurrent first-users of a key serialize into N successive calls; for
any such serialization (N = n + 1 identical requests) from a state not
holding the key, the pipeline constructor runs exactly once: the
construction log for the key grows by exactly one entry, and the run ends
in the state the single construction produced. -/
theorem at_most_one_construction_per_key (conv : DocumentConverter)
    (st : ConverterState) (f : InputFormat) (fo : FormatOption)
    (o : PipelineOptions) (n : ℕ)
    (hf : assocFind conv.format_to_options f = some fo)
    (ho : fo.pipeline_options = some o)
    (hmiss : assocFind st.initialized_pipelines (fo.pipeline_cls, o.fields) = none)
    (hok : conv.construct_ok fo.pipeline_cls o = true) :
    ∃ st1, run_get_pipeline_calls conv st (List.replicate (n + 1) f) = .ok st1
      ∧ st1.constructions.count (fo.pipeline_cls, o.fields) =
          st.constructions.count (fo.pipeline_cls, o.fields) + 1 := by
  refine ⟨st.afterConstruct (fo.pipeline_cls, o.fields), ?_, ?_⟩
  · rw [List.replicate_succ]
    unfold run_get_pipeline_calls
    rw [_get_pipeline_miss conv st f fo o hf ho hmiss hok]
    exact run_calls_replicate_hit conv _ f fo o st.next_instance n hf ho
      (assocFind_append_of_none st.initialized_pipelines _ _ hmiss)
  · simp [ConverterState.afterConstruct, List.count_append]

/-- C8 witness: three serialized first-use calls for PDF on a fresh
converter construct the `StandardPdfPipeline` exactly once. -/
theorem at_most_one_construction_per_key_witness :
    ∃ st1, run_get_pipeline_calls convPdfOnly ConverterState.initial
        (List.replicate 3 .PDF) = .ok st1
      ∧ st1.constructions.count
          (.StandardPdfPipeline, [("do_table_structure", "True"), ("do_ocr", "True")]) =
        ConverterState.initial.constructions.count
          (.StandardPdfPipeline, [("do_table_structure", "True"), ("do_ocr", "True")]) + 1 :=
  at_most_one_construction_per_key convPdfOnly ConverterState.initial .PDF
    (_get_default_option .PDF) (get_default_options .StandardPdfPipeline) 2
    (by decide) rfl rfl rfl

/-- C1 counterexample: lenient-mode `convert_all` on a valid, allowed PDF
document whose pipeline constructor raises yields NO `ConversionResult` at
all — in particular no `FAILURE` result citing the construction problem —
and the construction exception propagates out of the stream unhandled. -/
theorem construction_failure_lenient_yields_no_result :
    (convert_all convFailingCtor ConverterState.initial [docPdf] false).1 = []
    ∧ (convert_all convFailingCtor ConverterState.initial [docPdf] false).2 =
        some (.pipelineConstructionError .StandardPdfPipeline) := by
  exact ⟨by decide, by decide⟩

/-- C1 (amended): in lenient mode, a pipeline construction exception raised
inside `_get_pipeline` while processing a document propagates unhandled out
of the `convert_all` stream — the source wraps the `_get_pipeline` call in
no try/except — and the stream yields no result for that document; the
lenient `FAILURE` path of `_execute_pipeline` is taken only when
`_get_pipeline` returns `None`, not when construction raises. -/
theorem construction_failure_propagates_in_lenient_mode
    (conv : DocumentConverter) (st : ConverterState) (in_doc : InputDocument)
    (fo : FormatOption) (o : PipelineOptions)
    (hallow : in_doc.format ∈ conv.allowed_formats)
    (hvalid : in_doc.valid = true)
    (hf : assocFind conv.format_to_options in_doc.format = some fo)
    (ho : fo.pipeline_options = some o)
    (hmiss : assocFind st.initialized_pipelines (fo.pipeline_cls, o.fields) = none)
    (hfail : conv.construct_ok fo.pipeline_cls o = false) :
    convert_all conv st [in_doc] false =
      ([], some (.pipelineConstructionError fo.pipeline_cls)) := by
  have hget := _get_pipeline_ctor_fails conv st in_doc.format fo o hf ho hmiss hfail
  have hproc : _process_document conv st in_doc false =
      .error (.pipelineConstructionError fo.pipeline_cls) := by
    unfold _process_document _execute_pipeline
    rw [if_pos hallow]
    simp [hvalid, hget]
  unfold convert_all _convert
  rw [hproc]
  rfl

/-- C1 witness: the amended behavior at the concrete failing-constructor
converter. -/
theorem construction_failure_propagates_in_lenient_mode_witness :
    convert_all convFailingCtor ConverterState.initial [docPdf] false =
      ([], some (.pipelineConstructionError .StandardPdfPipeline)) :=
  construction_failure_propagates_in_lenient_mode convFailingCtor
    ConverterState.initial docPdf (_get_default_option .PDF)
    (get_default_options .StandardPdfPipeline)
    (by decide) rfl (by decide) rfl rfl rfl

/-- In strict mode the consuming loop of `convert_all` stops at the first
non-success result: it yields exactly the prefix of successes before it and
raises a `ConversionError`. -/
theorem convert_all_loop_first_bad (rs : List ConversionResult)
    (h : ∃ r ∈ rs, is_success_status r.status = false) :
    convert_all_loop true rs =
      (rs.takeWhile (fun r => is_success_status r.status),
       some (.conversionError "Conversion failed")) := by
  induction rs with
  | nil => simp at h
  | cons r rest ih =>
    cases hr : is_success_status r.status with
    | false =>
      simp only [convert_all_loop, hr, Bool.not_false, Bool.and_true,
        List.takeWhile_cons, Bool.false_eq_true, if_true, if_false]
    | true =>
      have hrest : ∃ x ∈ rest, is_success_status x.status = false := by
        obtain ⟨x, hx, hxs⟩ := h
        cases hx with
        | head => rw [hr] at hxs; exact absurd hxs (by simp)
        | tail _ hx2 => exact ⟨x, hx2, hxs⟩
      simp only [convert_all_loop, hr, Bool.not_true, Bool.and_false,
        List.takeWhile_cons, Bool.false_eq_true, if_false, if_true, ih hrest]

/-- C3: in strict mode, if the results `_convert` would yield contain one
whose status is neither SUCCESS nor PARTIAL_SUCCESS, `convert_all` raises a
`ConversionError` there and the stream consists of exactly the results
before it — none after; and if the input produced no result at all (and no
exception), `convert_all` raises a `ConversionError` after exhausting the
stream. -/
theorem strict_mode_first_failure_aborts (conv : DocumentConverter)
    (st : ConverterState) (docs : List InputDocument)
    (rs : List ConversionResult) (stx : ConverterState) (err0 : Option DocErr)
    (hconv : _convert conv st docs true = (rs, stx, err0)) :
    ((∃ r ∈ rs, is_success_status r.status = false) →
      convert_all conv st docs true =
        (rs.takeWhile (fun r => is_success_status r.status),
         some (.conversionError "Conversion failed")))
    ∧ (rs = [] → err0 = none →
      convert_all conv st docs true =
        ([], some (.conversionError
          "Conversion failed because the provided file has no recognizable format"))) := by
  constructor
  · intro hbad
    unfold convert_all
    rw [hconv]
    simp only []
    rw [convert_all_loop_first_bad rs hbad]
  · rintro rfl rfl
    unfold convert_all
    rw [hconv]
    rfl

/-- C3 witness: a SUCCESS/FAILURE/SUCCESS batch yields only the first
result before the strict-mode abort; the empty input raises the
no-recognizable-format error. -/
theorem strict_mode_first_failure_aborts_witness :
    convert_all convAllOk ConverterState.initial [docMdGood1, docMdBad, docMdGood2] true =
      (rsMd.takeWhile (fun r => is_success_status r.status),
       some (.conversionError "Conversion failed"))
    ∧ convert_all convAllOk ConverterState.initial [] true =
      ([], some (.conversionError
        "Conversion failed because the provided file has no recognizable format")) :=
  ⟨(strict_mode_first_failure_aborts convAllOk ConverterState.initial
      [docMdGood1, docMdBad, docMdGood2] rsMd stMd none (by decide)).1 (by decide),
   (strict_mode_first_failure_aborts convAllOk ConverterState.initial
      [] [] ConverterState.initial none rfl).2 rfl rfl⟩

/-- A zero-area rectangle produces the empty trace and leaves the
script-reader pool unchanged. -/
theorem ocr_zero_area_step (cfg : TesseractConfig) (readers : List String)
    (z : OcrRectInput) (hz : z.rect.area = 0) :
    process_ocr_rect cfg readers z =
      ({ rendered := false, osd_submitted := false, reader_used := none
         rotation := 0, cells := [] }, readers) := by
  unfold process_ocr_rect
  rw [if_pos hz]

/-- Unfolding one step of the page-level cell collection. -/
theorem all_ocr_cells_cons (cfg : TesseractConfig) (readers : List String)
    (a : OcrRectInput) (l : List OcrRectInput) :
    all_ocr_cells cfg readers (a :: l) =
      (process_ocr_rect cfg readers a).1.cells
        ++ all_ocr_cells cfg (process_ocr_rect cfg readers a).2 l := by
  simp [all_ocr_cells, process_ocr_rects]

/-- C5: an OCR rectangle of zero area is skipped without error: it is never
rendered, never submitted to the OSD detector or to any recognizer, and
removing it from the rectangle list leaves the page's collected cells
unchanged — it contributes no text cells. -/
theorem zero_area_ocr_rect_skipped (cfg : TesseractConfig)
    (readers : List String) (z : OcrRectInput)
    (pre post : List OcrRectInput) (hz : z.rect.area = 0) :
    process_ocr_rect cfg readers z =
      ({ rendered := false, osd_submitted := false, reader_used := none
         rotation := 0, cells := [] }, readers)
    ∧ all_ocr_cells cfg readers (pre ++ z :: post) =
        all_ocr_cells cfg readers (pre ++ post) := by
  refine ⟨ocr_zero_area_step cfg readers z hz, ?_⟩
  induction pre generalizing readers with
  | nil =>
    rw [List.nil_append, List.nil_append, all_ocr_cells_cons,
      ocr_zero_area_step cfg readers z hz]
    simp
  | cons a pre ih =>
    rw [List.cons_append, List.cons_append, all_ocr_cells_cons, all_ocr_cells_cons]
    rw [ih]

/-- C5 witness: the 0-wide rectangle between two unit rectangles. -/
theorem zero_area_ocr_rect_skipped_witness :
    process_ocr_rect cfgFixed [] rectZeroArea =
      ({ rendered := false, osd_submitted := false, reader_used := none
         rotation := 0, cells := [] }, [])
    ∧ all_ocr_cells cfgFixed [] [rectNormal, rectZeroArea, rectNormal] =
        all_ocr_cells cfgFixed [] [rectNormal, rectNormal] :=
  zero_area_ocr_rect_skipped cfgFixed [] rectZeroArea [rectNormal] [rectNormal]
    (by simp [rectZeroArea, BBox.area])

/-- C6: when OSD returns no result for a (non-degenerate) region, the
automatic-language model skips the region entirely — no recognizer is
invoked and no cells are produced — while the fixed-language model proceeds
with zero rotation using the default recognizer. -/
theorem osd_failure_policy (cfg : TesseractConfig) (readers : List String)
    (input : OcrRectInput) (harea : input.rect.area ≠ 0)
    (hosd : input.osd = none) :
    (_is_auto cfg = true →
      process_ocr_rect cfg readers input =
        ({ rendered := true, osd_submitted := true, reader_used := none
           rotation := 0, cells := [] }, readers))
    ∧ (_is_auto cfg = false →
      process_ocr_rect cfg readers input =
        ({ rendered := true, osd_submitted := true, reader_used := some .default
           rotation := 0, cells := mk_cells input.rect 0 input.boxes }, readers)) := by
  unfold process_ocr_rect
  rw [if_neg harea, hosd]
  constructor
  · intro hauto
    rw [hauto]
    rfl
  · intro hfixed
    rw [hfixed]
    rfl

/-- C6 witness: the no-OSD unit rectangle under the automatic and the
fixed configuration. -/
theorem osd_failure_policy_witness :
    process_ocr_rect cfgAuto [] rectNoOsd =
      ({ rendered := true, osd_submitted := true, reader_used := none
         rotation := 0, cells := [] }, [])
    ∧ process_ocr_rect cfgFixed [] rectNoOsd =
      ({ rendered := true, osd_submitted := true, reader_used := some .default
         rotation := 0, cells := mk_cells rectNoOsd.rect 0 rectNoOsd.boxes }, []) :=
  ⟨(osd_failure_policy cfgAuto [] rectNoOsd (by simp [rectNoOsd, BBox.area]) rfl).1
      (by decide),
   (osd_failure_policy cfgFixed [] rectNoOsd (by simp [rectNoOsd, BBox.area]) rfl).2
      (by decide)⟩

/-- C4: for a document with at least one page, `_assemble_document` sets
the document-level layout, table and OCR scores to the NaN-ignoring mean of
the per-page scores and the parse score to the 10th percentile
(`nanquantile` at q = 1/10, NOT the mean) of the per-page parse scores; for
a document with zero pages the aggregation block is skipped without raising
and every document-level field keeps its default. -/
theorem confidence_aggregation_policy (c : ConfidenceReport) :
    (0 < c.pages.length →
      _assemble_document_confidence c =
        { c with
          layout_score := nanmean (c.pages.map PageConfidence.layout_score)
          parse_score := nanquantile (1 / 10) (c.pages.map PageConfidence.parse_score)
          table_score := nanmean (c.pages.map PageConfidence.table_score)
          ocr_score := nanmean (c.pages.map PageConfidence.ocr_score) })
    ∧ (c.pages.length = 0 → _assemble_document_confidence c = c) := by
  constructor
  · intro h
    unfold _assemble_document_confidence
    rw [if_pos h]
  · intro h
    unfold _assemble_document_confidence
    rw [if_neg (by omega)]

/-- The spec's example, evaluated: for per-page parse scores
0.9, 0.95, 0.2, 0.97, 0.99 the 10th percentile is 0.48 = 12/25 — a
worst-case-weighted low value — while the mean would be 0.802 = 401/500;
the two policies genuinely differ. -/
theorem parse_score_tenth_percentile_example :
    nanquantile (1 / 10) (confExample.pages.map PageConfidence.parse_score) = some (12 / 25)
    ∧ nanmean (confExample.pages.map PageConfidence.parse_score) = some (401 / 500)
    ∧ (12 / 25 : ℚ) ≠ 401 / 500 := by
  have hfil : nanFilter (confExample.pages.map PageConfidence.parse_score)
      = [9 / 10, 19 / 20, 1 / 5, 97 / 100, 99 / 100] := by simp [confExample, nanFilter]
  refine ⟨?_, ?_, by norm_num⟩
  · have hsort : sortAsc [(9 : ℚ) / 10, 19 / 20, 1 / 5, 97 / 100, 99 / 100]
        = [1 / 5, 9 / 10, 19 / 20, 97 / 100, 99 / 100] := by
      norm_num [sortAsc, insertSorted]
    unfold nanquantile
    rw [hfil, hsort]
    have h2 : Int.toNat 2 / 5 = 0 := by decide
    norm_num [qfloor, h2]
  · unfold nanmean
    rw [hfil]
    norm_num

/-- C4 witness: the spec's example document with per-page parse scores
0.9, 0.95, 0.2, 0.97, 0.99. -/
theorem confidence_aggregation_policy_witness :
    0 < confExample.pages.length
    ∧ _assemble_document_confidence confExample =
      { confExample with
        layout_score := nanmean (confExample.pages.map PageConfidence.layout_score)
        parse_score := nanquantile (1 / 10) (confExample.pages.map PageConfidence.parse_score)
        table_score := nanmean (confExample.pages.map PageConfidence.table_score)
        ocr_score := nanmean (confExample.pages.map PageConfidence.ocr_score) } :=
  ⟨by decide, (confidence_aggregation_policy confExample).1 (by decide)⟩

end Docling
